import Mathlib

/-!
Shallow embedding of `src/hope/hope.ino` (the "Hope Box" firmware): the UI
state machine, the passcode entry engine, the content catalog and the
rendering/feedback pipeline, as far as they are needed to settle the frozen
claims.

Modelling conventions:
* Machine integers (`uint8_t` cursors, `unsigned long` timestamps) are `Nat`.
  Every arithmetic step the code performs on them is bounded well below any
  overflow (`passIndex ≤ 4`, `selectedMenuItem < 4`, `currentPage < 6`), and
  the C comparison `currentPage < maxPages - 1` promotes its `uint8_t`
  operands to `int`, so for `maxPages = 0` it compares against `-1` and is
  false — which `Nat` truncated subtraction (`0 - 1 = 0`) reproduces exactly.
  `millis()` is modelled as a monotone `Nat` clock (no 49.7-day wraparound).
* Side effects (vibration motor writes, LED writes, display writes) are
  reified as a `List Effect` emitted by each handler, in program order.
  Purely decorative sub-draws that no claim mentions (the ripple circles
  around a freshly entered passcode digit, the blink phases of the
  UNLOCKED/LOCKED banner) are folded into one effect constructor each.
* `handleButtons` is modelled per confirmed (debounced) press: `pressButton
  b now s` is the effect of one button `b` whose falling edge survived the
  re-sample, taken at time `now`.  The timeout check at the bottom of
  `loop()` is `loopTimeout now s`.
-/

namespace HopeBox

/-- Machine states, from `enum State { BOOTING, LOCKED, UNLOCKING, MENU, CONTENT }`. -/
inductive MState
  | BOOTING
  | LOCKED
  | UNLOCKING
  | MENU
  | CONTENT
deriving DecidableEq, Repr

/-- `#define PASS_LENGTH 4`. -/
def PASS_LENGTH : Nat := 4

/-- `#define TIMEOUT_MS 5000`. -/
def TIMEOUT_MS : Nat := 5000

/-- `#define SCREEN_W 128`. -/
def SCREEN_W : Nat := 128

/-- `#define SCREEN_H 160`. -/
def SCREEN_H : Nat := 160

/-- `#define VIB_SHORT 50`. -/
def VIB_SHORT : Nat := 50

/-- `#define VIB_MEDIUM 100`. -/
def VIB_MEDIUM : Nat := 100

/-- `#define VIB_LONG 150`. -/
def VIB_LONG : Nat := 150

/-- `const uint8_t CORRECT_PASSCODE[PASS_LENGTH] = {0, 0, 0, 0};`. -/
def CORRECT_PASSCODE : Fin PASS_LENGTH → Nat := fun _ => 0

/-- The image buffers the firmware blits from (`image.h` boot logo, `pic1.h`
memories picture).  Their pixel data is opaque to every claim; only the
identity of the buffer matters. -/
inductive Img
  | bootLogo
  | pic1
deriving DecidableEq, Repr

/-- One observable side effect, in program order.  `blitStrip destX destW
srcX0 img`: the display window `[destX, destX+destW) × [0, SCREEN_H)` is
filled row by row from columns `[srcX0, srcX0+destW)` of `img` (this is what
the `setAddrWindow`/`pushColor(pic1[y*SCREEN_W+srcX])` loops in
`slideAnimation` amount to).  `blitFull img` is `drawFullScreenImage(img)`.
`matchChecked ok` marks the one call site of `checkPasscode()` with its
result. -/
inductive Effect
  | vibrate (ms : Nat)
  | vibratePattern (count onMs offMs : Nat)
  | setLeds (r g b : Nat)
  | blitFull (img : Img)
  | blitStrip (destX destW srcX0 : Nat) (img : Img)
  | pageIndicator (page maxP : Nat)
  | drawCircles (filled : Nat)
  | titleBar (idx : Nat)
  | textContent (idx page : Nat)
  | bg
  | menuScreen (sel : Nat)
  | menuItem (idx : Nat) (selected : Bool)
  | lockScreen
  | unlockAnim
  | lockedAnim
  | matchChecked (ok : Bool)
deriving DecidableEq, Repr

/-- The mutable globals of the sketch that the state machine owns. -/
structure Device where
  currentState : MState
  enteredPasscode : Fin PASS_LENGTH → Nat
  passIndex : Nat
  lastPressTime : Nat
  selectedMenuItem : Nat
  currentPage : Nat
  maxPages : Nat
  lastMemoryPage : Nat

/-- The four physical buttons (`BUTTON_0`, `BUTTON_1`, `BUTTON_SELECT`,
`BUTTON_BACK`). -/
inductive Button
  | b0
  | b1
  | bselect
  | bback
deriving DecidableEq, Repr

/-- The passcode symbol each button writes in the LOCKED state:
`enteredPasscode[passIndex] = 0 / 1 / 2 / 3` in the four handler branches. -/
def buttonSymbol : Button → Nat
  | .b0 => 0
  | .b1 => 1
  | .bselect => 2
  | .bback => 3

/-- `bool checkPasscode()`: element-wise comparison of the four stored slots
against `CORRECT_PASSCODE` (the loop early-returns false on the first
mismatch and returns true after all four, which is `List.all`).  Note the
function reads only the slot array, never `passIndex`. -/
def checkPasscode (entered : Fin PASS_LENGTH → Nat) : Bool :=
  (List.finRange PASS_LENGTH).all fun i => entered i == CORRECT_PASSCODE i

/-- `enteredPasscode[idx] = sym` (the write is guarded by
`passIndex < PASS_LENGTH` at every call site). -/
def writeSlot (entered : Fin PASS_LENGTH → Nat) (idx sym : Nat) :
    Fin PASS_LENGTH → Nat :=
  fun i => if (i : Nat) = idx then sym else entered i

/-- The LED color `setRGBLeds` receives in each LOCKED symbol branch. -/
def lockedLed : Button → Effect
  | .b0 => .setLeds 0 100 255
  | .b1 => .setLeds 150 50 200
  | .bselect => .setLeds 255 100 180
  | .bback => .setLeds 255 150 0

/-- The `switch (selectedMenuItem)` LED update after a menu move; the switch
has no default, so an out-of-range selection sets nothing. -/
def menuLedFx : Nat → List Effect
  | 0 => [.setLeds 150 50 200]
  | 1 => [.setLeds 255 100 180]
  | 2 => [.setLeds 0 100 255]
  | 3 => [.setLeds 255 150 0]
  | _ => []

/-- `drawMenu()`: purple ambient LEDs, `unlockVibration()`
(= `vibratePattern(3, 60, 40)`), then the full menu redraw (gradient, title
card, four items with the current selection highlighted). -/
def drawMenuFx (sel : Nat) : List Effect :=
  [.setLeds 150 50 200, .vibratePattern 3 60 40, .menuScreen sel]

/-- `drawPageIndicator()` guarded by `maxPages > 1` as at every call site
(the function itself also early-returns when `maxPages <= 1`). -/
def pageIndicatorFx (page mp : Nat) : List Effect :=
  if mp > 1 then [.pageIndicator page mp] else []

/-- The step count of `slideAnimation` (`int steps = 16;`). -/
def steps : Nat := 16

/-- `int stepSize = SCREEN_W / steps;`. -/
def stepSize : Nat := SCREEN_W / steps

/-- Step `i` (1-based) of `slideAnimation(direction)`.  `offset = i *
stepSize`.  For `direction = true` the code opens the window
`(0, 0, offset, SCREEN_H)` and pushes `pic1[y*SCREEN_W + (SCREEN_W - offset
+ x)]` for `x < offset`: a strip of width `offset` at the left screen edge,
sourced from the rightmost `offset` columns of `pic1`.  For `direction =
false` it opens `(SCREEN_W - offset, 0, offset, SCREEN_H)` and pushes
`pic1[y*SCREEN_W + x]`: the same width at the right screen edge, sourced
from the leftmost columns. -/
def slideStrip (direction : Bool) (i : Nat) : Effect :=
  let offset := i * stepSize
  if direction then .blitStrip 0 offset (SCREEN_W - offset) .pic1
  else .blitStrip (SCREEN_W - offset) offset 0 .pic1

/-- `void slideAnimation(bool direction)`: the 16 strip steps (`for (int i =
1; i <= steps; i++)`) followed by `drawFullScreenImage(pic1)`. -/
def slideAnimation (direction : Bool) : List Effect :=
  ((List.range steps).map fun j => slideStrip direction (j + 1)) ++
    [.blitFull .pic1]

/-- The `switch (contentIndex)` at the top of `showContent` that fixes
`maxPages`; no default case, so other indices leave it unchanged. -/
def contentMaxPages (contentIndex oldMax : Nat) : Nat :=
  match contentIndex with
  | 0 => 6
  | 1 => 3
  | 2 => 2
  | 3 => 1
  | _ => oldMax

/-- `void showContent(int contentIndex)`: sets `maxPages`, `currentPage = 0`,
`lastMemoryPage = 0`, vibrates `VIB_MEDIUM`; content index 1 (Memories)
blits `pic1` immediately and returns before the title bar is drawn, every
other index draws the gradient background, the title bar, its page-0 body,
and (when `maxPages > 1`) the page indicator. -/
def showContent (contentIndex : Nat) (s0 : Device) : Device × List Effect :=
  if contentIndex = 1 then
    ({ s0 with maxPages := contentMaxPages contentIndex s0.maxPages,
               currentPage := 0, lastMemoryPage := 0 },
      [.vibrate VIB_MEDIUM, .blitFull .pic1] ++
        pageIndicatorFx 0 (contentMaxPages contentIndex s0.maxPages))
  else
    ({ s0 with maxPages := contentMaxPages contentIndex s0.maxPages,
               currentPage := 0, lastMemoryPage := 0 },
      [.vibrate VIB_MEDIUM, .bg, .titleBar contentIndex] ++
        (if contentIndex = 0 ∨ contentIndex = 2 then
          [Effect.textContent contentIndex 0]
         else if contentIndex = 3 then [Effect.textContent 3 0]
         else []) ++
        pageIndicatorFx 0 (contentMaxPages contentIndex s0.maxPages))

/-- `void updatePageContent(int contentIndex)`: `pageTurnVibration()`
(= `vibrate(VIB_SHORT)`), then for Memories (index 1) `slideDirection =
(currentPage > lastMemoryPage)`, `lastMemoryPage = currentPage`, the slide
animation and the page indicator; for text content a background refresh and
the page body. -/
def updatePageContent (contentIndex : Nat) (s : Device) : Device × List Effect :=
  if contentIndex = 1 then
    ({ s with lastMemoryPage := s.currentPage },
      .vibrate VIB_SHORT ::
        (slideAnimation (decide (s.currentPage > s.lastMemoryPage)) ++
          pageIndicatorFx s.currentPage s.maxPages))
  else
    (s, .vibrate VIB_SHORT ::
      ((if contentIndex = 0 ∨ contentIndex = 2 then
          [Effect.bg, Effect.textContent contentIndex s.currentPage]
        else if contentIndex = 3 then [Effect.textContent 3 s.currentPage]
        else []) ++
        pageIndicatorFx s.currentPage s.maxPages))

/-- The LOCKED-state symbol entry shared by all four button branches of
`handleButtons` (guarded by `currentState == LOCKED && passIndex <
PASS_LENGTH` at the call site): store the symbol, advance the cursor, set
the symbol's LED color, redraw the circles; when the cursor reaches
`PASS_LENGTH`, call `checkPasscode()`.  On a match: `currentState =
UNLOCKING; showUnlockAnimation(); drawMenu(); currentState = MENU;` —
neither `passIndex` nor the slots are reset.  On a mismatch:
`showLockedAnimation()`, whose tail resets `passIndex = 0`, clears every
slot to 0, restores the blue LEDs and redraws the lock screen. -/
def lockedPress (b : Button) (s : Device) : Device × List Effect :=
  if s.passIndex + 1 ≥ PASS_LENGTH then
    if checkPasscode (writeSlot s.enteredPasscode s.passIndex (buttonSymbol b)) then
      ({ s with currentState := .MENU,
                enteredPasscode := writeSlot s.enteredPasscode s.passIndex (buttonSymbol b),
                passIndex := s.passIndex + 1 },
        [Effect.vibrate 30, lockedLed b, Effect.drawCircles (s.passIndex + 1),
         .matchChecked true, .unlockAnim] ++ drawMenuFx s.selectedMenuItem)
    else
      ({ s with passIndex := 0, enteredPasscode := fun _ => 0 },
        [Effect.vibrate 30, lockedLed b, Effect.drawCircles (s.passIndex + 1),
         .matchChecked false, .lockedAnim, .setLeds 0 100 255, .lockScreen])
  else
    ({ s with enteredPasscode := writeSlot s.enteredPasscode s.passIndex (buttonSymbol b),
              passIndex := s.passIndex + 1 },
      [Effect.vibrate 30, lockedLed b, Effect.drawCircles (s.passIndex + 1)])

/-- The state-dependent dispatch of one confirmed press, applied to a state
whose `lastPressTime` has already been stamped (the shared
`lastPressTime = millis(); buttonPressVibration();` prologue of every
branch of `handleButtons()` is the `Effect.vibrate 30` heading every
result). -/
def pressDispatch (b : Button) (s : Device) : Device × List Effect :=
  if s.currentState = MState.LOCKED ∧ s.passIndex < PASS_LENGTH then
    lockedPress b s
  else
    match b with
    | .b0 =>
      if s.currentState = MState.MENU then
        ({ s with selectedMenuItem :=
             if s.selectedMenuItem = 0 then 3 else s.selectedMenuItem - 1 },
          [Effect.vibrate 30, Effect.vibrate VIB_SHORT] ++
            menuLedFx (if s.selectedMenuItem = 0 then 3 else s.selectedMenuItem - 1) ++
            [.menuItem s.selectedMenuItem false,
             .menuItem (if s.selectedMenuItem = 0 then 3 else s.selectedMenuItem - 1) true])
      else if s.currentState = MState.CONTENT then
        if s.currentPage > 0 then
          ((updatePageContent s.selectedMenuItem
              { s with currentPage := s.currentPage - 1 }).1,
            Effect.vibrate 30 ::
              (updatePageContent s.selectedMenuItem
                { s with currentPage := s.currentPage - 1 }).2)
        else (s, [Effect.vibrate 30])
      else (s, [Effect.vibrate 30])
    | .b1 =>
      if s.currentState = MState.MENU then
        ({ s with selectedMenuItem := (s.selectedMenuItem + 1) % 4 },
          [Effect.vibrate 30, Effect.vibrate VIB_SHORT] ++
            menuLedFx ((s.selectedMenuItem + 1) % 4) ++
            [.menuItem s.selectedMenuItem false,
             .menuItem ((s.selectedMenuItem + 1) % 4) true])
      else if s.currentState = MState.CONTENT then
        if s.currentPage < s.maxPages - 1 then
          ((updatePageContent s.selectedMenuItem
              { s with currentPage := s.currentPage + 1 }).1,
            Effect.vibrate 30 ::
              (updatePageContent s.selectedMenuItem
                { s with currentPage := s.currentPage + 1 }).2)
        else (s, [Effect.vibrate 30])
      else (s, [Effect.vibrate 30])
    | .bselect =>
      if s.currentState = MState.MENU then
        ({ (showContent s.selectedMenuItem s).1 with currentState := MState.CONTENT },
          Effect.vibrate 30 ::
            ((showContent s.selectedMenuItem s).2 ++ [.setLeds 50 50 50]))
      else (s, [Effect.vibrate 30])
    | .bback =>
      if s.currentState = MState.CONTENT then
        ({ s with currentState := MState.MENU },
          Effect.vibrate 30 :: drawMenuFx s.selectedMenuItem)
      else (s, [Effect.vibrate 30])

/-- One confirmed (debounced) press of button `b` at time `now`, following
`handleButtons()`: `lastPressTime = millis()` and `buttonPressVibration()`
(= `vibrate(30)`) happen before any state-dependent branch, then the
branches of the corresponding `if (currentButton… == LOW)` block. -/
def pressButton (b : Button) (now : Nat) (s0 : Device) : Device × List Effect :=
  pressDispatch b { s0 with lastPressTime := now }

/-- The idle-timeout check at the bottom of `loop()`: `if (currentState ==
LOCKED && millis() - lastPressTime > TIMEOUT_MS && passIndex > 0)` reset the
cursor, clear the four slots and redraw the (now empty) circles.  `now` is
the value `millis()` returns this iteration. -/
def loopTimeout (now : Nat) (s : Device) : Device × List Effect :=
  if s.currentState = MState.LOCKED ∧ now - s.lastPressTime > TIMEOUT_MS ∧
      s.passIndex > 0 then
    ({ s with passIndex := 0, enteredPasscode := fun _ => 0 },
      [.drawCircles 0])
  else (s, [])

/-- Folding a sequence of confirmed presses (all at clock value `now`;
no claim depends on the spacing of the presses). -/
def pressSeq (now : Nat) (bs : List Button) (s : Device) : Device :=
  bs.foldl (fun st b => (pressButton b now st).1) s

/-- The image buffer an effect reads from, if any. -/
def effectImg : Effect → Option Img
  | .blitFull img => some img
  | .blitStrip _ _ _ img => some img
  | _ => none

/-- Whether an effect list draws the title bar (`showContent`'s non-Memories
layout). -/
def hasTitleBar (fx : List Effect) : Bool :=
  fx.any fun e => match e with
    | .titleBar _ => true
    | _ => false

/-! ## Helper lemmas -/

/-- The match predicate holds exactly when all four slots are 0. -/
theorem checkPasscode_true_iff (entered : Fin PASS_LENGTH → Nat) :
    checkPasscode entered = true ↔ ∀ i : Fin PASS_LENGTH, entered i = 0 := by
  simp [checkPasscode, List.all_eq_true, CORRECT_PASSCODE]

/-- One `BUTTON_1` press in the MENU state advances the selection modulo 4
and touches nothing else of the state. -/
theorem menuStep_b1 (now : Nat) (s : Device) (hst : s.currentState = .MENU) :
    (pressButton .b1 now s).1 =
      { s with lastPressTime := now,
               selectedMenuItem := (s.selectedMenuItem + 1) % 4 } := by
  simp [pressButton, pressDispatch, hst]

/-- One `BUTTON_0` press in the MENU state moves the selection back with the
wrap `selectedMenuItem == 0 ? 3 : selectedMenuItem - 1`. -/
theorem menuStep_b0 (now : Nat) (s : Device) (hst : s.currentState = .MENU) :
    (pressButton .b0 now s).1 =
      { s with lastPressTime := now,
               selectedMenuItem :=
                 if s.selectedMenuItem = 0 then 3 else s.selectedMenuItem - 1 } := by
  simp [pressButton, pressDispatch, hst]

/-- Repeated `BUTTON_1` presses in the MENU state iterate the forward wrap
on the selection and stay in the MENU state. -/
theorem pressSeq_menu_b1 (now n : Nat) (s : Device)
    (hst : s.currentState = .MENU) :
    (pressSeq now (List.replicate n .b1) s).currentState = .MENU ∧
    (pressSeq now (List.replicate n .b1) s).selectedMenuItem =
      (fun j => (j + 1) % 4)^[n] s.selectedMenuItem := by
  induction n generalizing s with
  | zero => exact ⟨hst, rfl⟩
  | succ n ih =>
    have e := menuStep_b1 now s hst
    have hst' : (pressButton .b1 now s).1.currentState = .MENU := by
      rw [e]; exact hst
    have hsel : (pressButton .b1 now s).1.selectedMenuItem =
        (s.selectedMenuItem + 1) % 4 := by rw [e]
    obtain ⟨ih1, ih2⟩ := ih ((pressButton .b1 now s).1) hst'
    simp only [List.replicate_succ, pressSeq, List.foldl] at ih1 ih2 ⊢
    exact ⟨ih1, by rw [ih2, hsel, Function.iterate_succ_apply]⟩

/-- Repeated `BUTTON_0` presses in the MENU state iterate the backward wrap
on the selection and stay in the MENU state. -/
theorem pressSeq_menu_b0 (now n : Nat) (s : Device)
    (hst : s.currentState = .MENU) :
    (pressSeq now (List.replicate n .b0) s).currentState = .MENU ∧
    (pressSeq now (List.replicate n .b0) s).selectedMenuItem =
      (fun j => if j = 0 then 3 else j - 1)^[n] s.selectedMenuItem := by
  induction n generalizing s with
  | zero => exact ⟨hst, rfl⟩
  | succ n ih =>
    have e := menuStep_b0 now s hst
    have hst' : (pressButton .b0 now s).1.currentState = .MENU := by
      rw [e]; exact hst
    have hsel : (pressButton .b0 now s).1.selectedMenuItem =
        (if s.selectedMenuItem = 0 then 3 else s.selectedMenuItem - 1) := by
      rw [e]
    obtain ⟨ih1, ih2⟩ := ih ((pressButton .b0 now s).1) hst'
    simp only [List.replicate_succ, pressSeq, List.foldl] at ih1 ih2 ⊢
    exact ⟨ih1, by rw [ih2, hsel, Function.iterate_succ_apply]⟩

/-- Entering the fourth symbol in the LOCKED state when it completes the
reference sequence: the machine moves to MENU (through the transient
UNLOCKING) and neither the cursor nor the slots are reset. -/
theorem pressButton_fourth_success (b : Button) (now : Nat) (s : Device)
    (hst : s.currentState = .LOCKED) (hpi : s.passIndex = 3)
    (hok : checkPasscode (writeSlot s.enteredPasscode 3 (buttonSymbol b)) = true) :
    (pressButton b now s).1 =
      { s with currentState := .MENU,
               enteredPasscode := writeSlot s.enteredPasscode 3 (buttonSymbol b),
               passIndex := 4, lastPressTime := now } := by
  simp [pressButton, pressDispatch, lockedPress, hst, hpi, hok, PASS_LENGTH]

/-- Entering the fourth symbol in the LOCKED state when the attempt does not
match: `showLockedAnimation()` resets the cursor to 0 and clears every slot,
and the machine stays LOCKED. -/
theorem pressButton_fourth_failure (b : Button) (now : Nat) (s : Device)
    (hst : s.currentState = .LOCKED) (hpi : s.passIndex = 3)
    (hbad : checkPasscode (writeSlot s.enteredPasscode 3 (buttonSymbol b)) = false) :
    (pressButton b now s).1 =
      { s with passIndex := 0, enteredPasscode := fun _ => 0,
               lastPressTime := now } := by
  simp [pressButton, pressDispatch, lockedPress, hst, hpi, hbad, PASS_LENGTH]

/-- `updatePageContent` never changes the state tag, the page cursor, the
page bound or the selection (for Memories it only records
`lastMemoryPage`). -/
theorem updatePageContent_frame (ci : Nat) (s : Device) :
    (updatePageContent ci s).1.currentState = s.currentState ∧
    (updatePageContent ci s).1.currentPage = s.currentPage ∧
    (updatePageContent ci s).1.maxPages = s.maxPages := by
  by_cases h : ci = 1 <;> simp [updatePageContent, h]

/-- A `BUTTON_0`/`BUTTON_1` press in the CONTENT state keeps the machine in
CONTENT, keeps the page cursor strictly below the page bound, and keeps the
page bound itself. -/
theorem contentNav_preserves (b : Button) (now : Nat) (s : Device)
    (hb : b = Button.b0 ∨ b = Button.b1)
    (hst : s.currentState = .CONTENT) (hpg : s.currentPage < s.maxPages) :
    (pressButton b now s).1.currentState = .CONTENT ∧
    (pressButton b now s).1.currentPage < (pressButton b now s).1.maxPages ∧
    (pressButton b now s).1.maxPages = s.maxPages := by
  rcases hb with rfl | rfl
  · by_cases hgt : s.currentPage > 0
    · simp only [pressButton, pressDispatch, hst]
      simp only [hgt]
      simp only [reduceCtorEq, false_and, if_false, if_neg, if_pos, if_true]
      refine ⟨(updatePageContent_frame _ _).1, ?_, (updatePageContent_frame _ _).2.2⟩
      rw [(updatePageContent_frame _ _).2.1, (updatePageContent_frame _ _).2.2]
      dsimp only
      omega
    · simp [pressButton, pressDispatch, hst, hgt]
      exact hpg
  · by_cases hlt : s.currentPage < s.maxPages - 1
    · simp only [pressButton, pressDispatch, hst]
      simp only [hlt]
      simp only [reduceCtorEq, false_and, if_false, if_neg, if_pos, if_true]
      refine ⟨(updatePageContent_frame _ _).1, ?_, (updatePageContent_frame _ _).2.2⟩
      rw [(updatePageContent_frame _ _).2.1, (updatePageContent_frame _ _).2.2]
      dsimp only
      omega
    · simp [pressButton, pressDispatch, hst, hlt]
      exact hpg

/-- Any sequence of `BUTTON_0`/`BUTTON_1` presses starting inside the page
bounds in the CONTENT state stays in CONTENT within the same bounds. -/
theorem pressSeq_content_invariant (now : Nat) (bs : List Button) :
    ∀ s : Device, s.currentState = .CONTENT → s.currentPage < s.maxPages →
      (∀ b ∈ bs, b = Button.b0 ∨ b = Button.b1) →
      (pressSeq now bs s).currentState = .CONTENT ∧
      (pressSeq now bs s).currentPage < (pressSeq now bs s).maxPages ∧
      (pressSeq now bs s).maxPages = s.maxPages := by
  induction bs with
  | nil => exact fun s h1 h2 _ => ⟨h1, h2, rfl⟩
  | cons b bs ih =>
    intro s h1 h2 hnav
    obtain ⟨p1, p2, p3⟩ := contentNav_preserves b now s (hnav b (by simp)) h1 h2
    obtain ⟨q1, q2, q3⟩ := ih ((pressButton b now s).1) p1 p2
      (fun c hc => hnav c (by simp [hc]))
    simp only [pressSeq, List.foldl] at q1 q2 q3 ⊢
    exact ⟨q1, q2, by rw [q3, p3]⟩

/-- A refused navigation press in the CONTENT state (previous at page 0,
next at the last page): the only state change is the `lastPressTime` stamp
and the only effect is the unconditional 30 ms button-press haptic. -/
theorem contentNav_refused (now : Nat) (s : Device)
    (hst : s.currentState = .CONTENT) :
    (s.currentPage = 0 →
      (pressButton .b0 now s).1 = { s with lastPressTime := now } ∧
      (pressButton .b0 now s).2 = [.vibrate 30]) ∧
    (s.currentPage = s.maxPages - 1 →
      (pressButton .b1 now s).1 = { s with lastPressTime := now } ∧
      (pressButton .b1 now s).2 = [.vibrate 30]) := by
  constructor
  · intro hp
    simp [pressButton, pressDispatch, hst, hp]
  · intro hp
    simp [pressButton, pressDispatch, hst, hp]

theorem matchChecked_not_in_slide (d : Bool) (r : Bool) :
    Effect.matchChecked r ∉ slideAnimation d := by
  intro hmem
  simp only [slideAnimation, List.mem_append, List.mem_map, List.mem_range,
    List.mem_singleton] at hmem
  rcases hmem with ⟨j, _, hj⟩ | hj
  · cases d <;> simp [slideStrip] at hj
  · simp at hj

theorem matchChecked_not_in_pageIndicatorFx (p mp : Nat) (r : Bool) :
    Effect.matchChecked r ∉ pageIndicatorFx p mp := by
  by_cases h : mp > 1 <;> simp [pageIndicatorFx, h]

theorem matchChecked_not_in_updatePageContent (ci : Nat) (s : Device) (r : Bool) :
    Effect.matchChecked r ∉ (updatePageContent ci s).2 := by
  intro hmem
  by_cases h : ci = 1 <;>
  by_cases h2 : ci = 0 ∨ ci = 2 <;>
  by_cases h3 : ci = 3 <;>
  by_cases h4 : s.maxPages > 1 <;>
    simp_all [updatePageContent, pageIndicatorFx, slideAnimation, slideStrip]
  all_goals (obtain ⟨a, -, ha⟩ := hmem; revert ha; split <;> simp)

theorem matchChecked_not_in_showContent (ci : Nat) (s : Device) (r : Bool) :
    Effect.matchChecked r ∉ (showContent ci s).2 := by
  intro hmem
  by_cases h : ci = 1 <;>
  by_cases h2 : ci = 0 ∨ ci = 2 <;>
  by_cases h3 : ci = 3 <;>
  by_cases h4 : contentMaxPages ci s.maxPages > 1 <;>
    simp_all [showContent, pageIndicatorFx]

theorem matchChecked_not_in_menuLedFx (n : Nat) (r : Bool) :
    Effect.matchChecked r ∉ menuLedFx n := by
  intro hm
  unfold menuLedFx at hm
  split at hm <;> simp at hm

theorem matchChecked_only_at_full (b : Button) (s : Device) (r : Bool)
    (hmem : Effect.matchChecked r ∈ (pressDispatch b s).2) :
    s.currentState = .LOCKED ∧ s.passIndex = 3 ∧
    r = checkPasscode (writeSlot s.enteredPasscode s.passIndex (buttonSymbol b)) := by
  by_cases hg : s.currentState = MState.LOCKED ∧ s.passIndex < PASS_LENGTH
  · rw [pressDispatch.eq_def, if_pos hg, lockedPress] at hmem
    by_cases hfull : s.passIndex + 1 ≥ PASS_LENGTH
    · have hpi : s.passIndex = 3 := by
        have h2 := hg.2
        simp only [PASS_LENGTH] at h2 hfull
        omega
      rw [if_pos hfull] at hmem
      by_cases hok : checkPasscode
          (writeSlot s.enteredPasscode s.passIndex (buttonSymbol b)) = true
      · rw [if_pos hok] at hmem
        refine ⟨hg.1, hpi, ?_⟩
        have hr : r = true := by
          cases b <;> simp_all [drawMenuFx, lockedLed]
        rw [hr, hok]
      · rw [if_neg hok] at hmem
        refine ⟨hg.1, hpi, ?_⟩
        have hr : r = false := by
          cases b <;> simp_all [lockedLed]
        cases hcp : checkPasscode
            (writeSlot s.enteredPasscode s.passIndex (buttonSymbol b)) with
        | false => rw [hr]
        | true => exact absurd hcp hok
    · rw [if_neg hfull] at hmem
      exfalso
      cases b <;> simp_all [lockedLed]
  · rw [pressDispatch.eq_def, if_neg hg] at hmem
    exfalso
    cases b with
    | b0 =>
      dsimp only at hmem
      by_cases h1 : s.currentState = MState.MENU
      · rw [if_pos h1] at hmem
        simp [matchChecked_not_in_menuLedFx] at hmem
      · rw [if_neg h1] at hmem
        by_cases h2 : s.currentState = MState.CONTENT
        · rw [if_pos h2] at hmem
          by_cases h3 : s.currentPage > 0
          · rw [if_pos h3] at hmem
            dsimp only at hmem
            rcases List.mem_cons.mp hmem with h4 | h4
            · simp at h4
            · exact matchChecked_not_in_updatePageContent _ _ r h4
          · rw [if_neg h3] at hmem
            simp at hmem
        · rw [if_neg h2] at hmem
          simp at hmem
    | b1 =>
      dsimp only at hmem
      by_cases h1 : s.currentState = MState.MENU
      · rw [if_pos h1] at hmem
        simp [matchChecked_not_in_menuLedFx] at hmem
      · rw [if_neg h1] at hmem
        by_cases h2 : s.currentState = MState.CONTENT
        · rw [if_pos h2] at hmem
          by_cases h3 : s.currentPage < s.maxPages - 1
          · rw [if_pos h3] at hmem
            dsimp only at hmem
            rcases List.mem_cons.mp hmem with h4 | h4
            · simp at h4
            · exact matchChecked_not_in_updatePageContent _ _ r h4
          · rw [if_neg h3] at hmem
            simp at hmem
        · rw [if_neg h2] at hmem
          simp at hmem
    | bselect =>
      dsimp only at hmem
      by_cases h1 : s.currentState = MState.MENU
      · rw [if_pos h1] at hmem
        dsimp only at hmem
        rcases List.mem_cons.mp hmem with h4 | h4
        · simp at h4
        · rcases List.mem_append.mp h4 with h5 | h5
          · exact matchChecked_not_in_showContent _ _ r h5
          · simp at h5
      · rw [if_neg h1] at hmem
        simp at hmem
    | bback =>
      dsimp only at hmem
      by_cases h1 : s.currentState = MState.CONTENT
      · rw [if_pos h1] at hmem
        simp [drawMenuFx] at hmem
      · rw [if_neg h1] at hmem
        simp at hmem

/-! ## Claims -/

/-- C1: for every stored attempt sequence of length 4 (`PASS_LENGTH`), the
passcode match check `checkPasscode()` returns true if and only if the
stored sequence equals the fixed reference sequence `{0,0,0,0}` element-wise
over all four positions. -/
theorem C1_checkPasscode_iff_reference (entered : Fin PASS_LENGTH → Nat) :
    checkPasscode entered = true ↔
      ∀ i : Fin PASS_LENGTH, entered i = CORRECT_PASSCODE i := by
  simpa [CORRECT_PASSCODE] using checkPasscode_true_iff entered

/-- C4: in the MENU state, from any selection `i < 4`, one `BUTTON_1`
("next") press yields `(i + 1) % 4`, one `BUTTON_0` ("previous") press
yields `(i - 1 + 4) % 4` (written `(i + 3) % 4`, the two agree on `[0,4)`),
and four consecutive identical presses of either button return to the
starting selection. -/
theorem C4_menu_selection_cyclic (now : Nat) (s : Device)
    (hst : s.currentState = .MENU) (hi : s.selectedMenuItem < 4) :
    (pressButton .b1 now s).1.selectedMenuItem = (s.selectedMenuItem + 1) % 4 ∧
    (pressButton .b0 now s).1.selectedMenuItem = (s.selectedMenuItem + 3) % 4 ∧
    (pressSeq now [.b1, .b1, .b1, .b1] s).selectedMenuItem = s.selectedMenuItem ∧
    (pressSeq now [.b0, .b0, .b0, .b0] s).selectedMenuItem = s.selectedMenuItem := by
  refine ⟨?_, ?_, ?_, ?_⟩
  · rw [menuStep_b1 now s hst]
  · rw [menuStep_b0 now s hst]
    dsimp only
    split <;> omega
  · have h := (pressSeq_menu_b1 now 4 s hst).2
    have : (List.replicate 4 Button.b1) = [.b1, .b1, .b1, .b1] := rfl
    rw [this] at h
    rw [h]
    simp only [Function.iterate_succ_apply, Function.iterate_zero_apply]
    omega
  · have h := (pressSeq_menu_b0 now 4 s hst).2
    have : (List.replicate 4 Button.b0) = [.b0, .b0, .b0, .b0] := rfl
    rw [this] at h
    rw [h]
    simp only [Function.iterate_succ_apply, Function.iterate_zero_apply]
    rcases (show s.selectedMenuItem = 0 ∨ s.selectedMenuItem = 1 ∨
        s.selectedMenuItem = 2 ∨ s.selectedMenuItem = 3 by omega) with
      h0 | h0 | h0 | h0 <;> rw [h0] <;> decide

/-- A LOCKED state with three correct symbols (three presses of `BUTTON_0`)
already accepted. -/
def unlockEntryState : Device :=
  { currentState := .LOCKED, enteredPasscode := fun _ => 0, passIndex := 3,
    lastPressTime := 0, selectedMenuItem := 0, currentPage := 0,
    maxPages := 0, lastMemoryPage := 0 }

/-- C2 counterexample: after the fourth correct symbol the machine is in
MENU but `passIndex` is 4, not 0 — the attempt state is not reset to empty
on a successful unlock. -/
theorem C2_counterexample_no_reset_on_unlock :
    (pressButton .b0 100 unlockEntryState).1.currentState = .MENU ∧
    (pressButton .b0 100 unlockEntryState).1.passIndex ≠ 0 := by
  decide

/-- C2 (amended): the attempt is reset to empty (cursor 0, all slots 0) on
idle timeout and on a failed match, but not on a successful unlock: there
the machine reaches MENU with `passIndex` still at `PASS_LENGTH` = 4 and
the slots hold the accepted symbols — all 0, since only the sequence equal
to `CORRECT_PASSCODE = {0,0,0,0}` unlocks. -/
theorem C2_attempt_reset_cases (b : Button) (now : Nat) (s : Device) :
    (s.currentState = .LOCKED → now - s.lastPressTime > TIMEOUT_MS →
      s.passIndex > 0 →
      (loopTimeout now s).1.passIndex = 0 ∧
      ∀ i, (loopTimeout now s).1.enteredPasscode i = 0) ∧
    (s.currentState = .LOCKED → s.passIndex = 3 →
      checkPasscode (writeSlot s.enteredPasscode 3 (buttonSymbol b)) = false →
      (pressButton b now s).1.currentState = .LOCKED ∧
      (pressButton b now s).1.passIndex = 0 ∧
      ∀ i, (pressButton b now s).1.enteredPasscode i = 0) ∧
    (s.currentState = .LOCKED → s.passIndex = 3 →
      checkPasscode (writeSlot s.enteredPasscode 3 (buttonSymbol b)) = true →
      (pressButton b now s).1.currentState = .MENU ∧
      (pressButton b now s).1.passIndex = PASS_LENGTH ∧
      ∀ i, (pressButton b now s).1.enteredPasscode i = 0) := by
  refine ⟨fun h1 h2 h3 => ?_, fun hst hpi hbad => ?_, fun hst hpi hok => ?_⟩
  · simp only [loopTimeout]
    rw [if_pos ⟨h1, h2, h3⟩]
    exact ⟨rfl, fun i => rfl⟩
  · rw [pressButton_fourth_failure b now s hst hpi hbad]
    exact ⟨hst, rfl, fun i => rfl⟩
  · rw [pressButton_fourth_success b now s hst hpi hok]
    refine ⟨rfl, rfl, fun i => ?_⟩
    exact (checkPasscode_true_iff _).mp hok i

/-- C4 witness: the cyclic behaviour at the concrete selection 2 in a
concrete MENU state. -/
theorem C4_menu_selection_cyclic_witness :
    (pressButton .b1 0
        { currentState := .MENU, enteredPasscode := fun _ => 0, passIndex := 4,
          lastPressTime := 0, selectedMenuItem := 2, currentPage := 0,
          maxPages := 0, lastMemoryPage := 0 }).1.selectedMenuItem = 3 := by
  have h := C4_menu_selection_cyclic 0
    { currentState := .MENU, enteredPasscode := fun _ => 0, passIndex := 4,
      lastPressTime := 0, selectedMenuItem := 2, currentPage := 0,
      maxPages := 0, lastMemoryPage := 0 } rfl (by decide)
  exact h.1

/-- A CONTENT state (Memories, 3 pages) at page 0. -/
def contentPage0State : Device :=
  { currentState := .CONTENT, enteredPasscode := fun _ => 0, passIndex := 4,
    lastPressTime := 0, selectedMenuItem := 1, currentPage := 0,
    maxPages := 3, lastMemoryPage := 0 }

/-- C3: in the Content state, for every sequence of next/previous page
inputs the cursor stays in `[0, maxPages)` for the fixed `maxPages` of the
current content, and a "previous" input at page 0 or a "next" input at the
last page leaves the cursor — and the display, since the only effect is the
press-acknowledgement haptic, with no redraw — unchanged.  (`Nat` already
gives `0 ≤ currentPage`.) -/
theorem C3_content_page_bounds (now : Nat) (s : Device) (bs : List Button)
    (hst : s.currentState = .CONTENT) (hpg : s.currentPage < s.maxPages)
    (hnav : ∀ b ∈ bs, b = Button.b0 ∨ b = Button.b1) :
    ((pressSeq now bs s).currentPage < (pressSeq now bs s).maxPages ∧
      (pressSeq now bs s).maxPages = s.maxPages) ∧
    (s.currentPage = 0 →
      (pressButton .b0 now s).1.currentPage = s.currentPage ∧
      (pressButton .b0 now s).2 = [.vibrate 30]) ∧
    (s.currentPage = s.maxPages - 1 →
      (pressButton .b1 now s).1.currentPage = s.currentPage ∧
      (pressButton .b1 now s).2 = [.vibrate 30]) := by
  obtain ⟨q1, q2, q3⟩ := pressSeq_content_invariant now bs s hst hpg hnav
  obtain ⟨r0, r1⟩ := contentNav_refused now s hst
  refine ⟨⟨q2, q3⟩, fun hp => ?_, fun hp => ?_⟩
  · obtain ⟨e, fx⟩ := r0 hp
    exact ⟨by rw [e], fx⟩
  · obtain ⟨e, fx⟩ := r1 hp
    exact ⟨by rw [e], fx⟩

/-- C3 witness: the invariant over the concrete input sequence
next, next, next, previous from the Memories content at page 0. -/
theorem C3_content_page_bounds_witness :
    (pressSeq 5 [Button.b1, .b1, .b1, .b0] contentPage0State).currentPage <
      (pressSeq 5 [Button.b1, .b1, .b1, .b0] contentPage0State).maxPages := by
  exact (C3_content_page_bounds 5 contentPage0State [Button.b1, .b1, .b1, .b0]
    rfl (by decide) (by decide)).1.1

/-- A LOCKED state with one symbol entered at time 0. -/
def oneSymbolState : Device :=
  { currentState := .LOCKED, enteredPasscode := fun _ => 0, passIndex := 1,
    lastPressTime := 0, selectedMenuItem := 0, currentPage := 0,
    maxPages := 0, lastMemoryPage := 0 }

/-- C5 counterexample: in a LOCKED state with `passIndex = 1` and exactly
`TIMEOUT_MS` = 5000 time units elapsed since the last press (so no accepted
input for at least `TIMEOUT_MS`), the next loop iteration does not reset:
the code requires `millis() - lastPressTime > TIMEOUT_MS` strictly. -/
theorem C5_counterexample_boundary :
    oneSymbolState.passIndex > 0 ∧
    5000 - oneSymbolState.lastPressTime ≥ TIMEOUT_MS ∧
    (loopTimeout 5000 oneSymbolState).1.passIndex ≠ 0 := by
  decide

/-- C5 (amended): in the LOCKED state, whenever `passIndex > 0` and strictly
more than `TIMEOUT_MS` (5000) time units have elapsed since the last
accepted input, the next loop iteration resets `passIndex` to 0 and clears
every entered symbol slot to 0. -/
theorem C5_idle_timeout_reset (now : Nat) (s : Device)
    (hst : s.currentState = .LOCKED)
    (helapsed : now - s.lastPressTime > TIMEOUT_MS)
    (hpi : s.passIndex > 0) :
    (loopTimeout now s).1.passIndex = 0 ∧
    ∀ i, (loopTimeout now s).1.enteredPasscode i = 0 := by
  simp only [loopTimeout]
  rw [if_pos ⟨hst, helapsed, hpi⟩]
  exact ⟨rfl, fun i => rfl⟩

/-- C5 witness: the amended timeout reset at a concrete LOCKED state, one
symbol entered, 5001 time units elapsed. -/
theorem C5_idle_timeout_reset_witness :
    (loopTimeout 5001 oneSymbolState).1.passIndex = 0 := by
  exact (C5_idle_timeout_reset 5001 oneSymbolState rfl (by decide) (by decide)).1

/-- C6 counterexample: a "previous page" press at page 0 in the Content
state is not free of feedback and state change: the 30 ms button-press
haptic (`buttonPressVibration()`) fires and `lastPressTime` is updated,
both before the bounds check. -/
theorem C6_counterexample_haptic_fires :
    contentPage0State.currentPage = 0 ∧
    Effect.vibrate 30 ∈ (pressButton .b0 777 contentPage0State).2 ∧
    (pressButton .b0 777 contentPage0State).1.lastPressTime ≠
      contentPage0State.lastPressTime := by
  decide

/-- C6 (amended): in the Content state a "previous page" press at page 0 or
a "next page" press at the last page is ignored as a navigation request: no
field changes except the `lastPressTime` stamp, and the only feedback is the
unconditional 30 ms button-press haptic — no redraw, no page-turn vibration,
no LED change. -/
theorem C6_refused_navigation (now : Nat) (s : Device)
    (hst : s.currentState = .CONTENT) :
    (s.currentPage = 0 →
      (pressButton .b0 now s).1 = { s with lastPressTime := now } ∧
      (pressButton .b0 now s).2 = [.vibrate 30]) ∧
    (s.currentPage = s.maxPages - 1 →
      (pressButton .b1 now s).1 = { s with lastPressTime := now } ∧
      (pressButton .b1 now s).2 = [.vibrate 30]) := by
  constructor
  · intro hp
    simp [pressButton, pressDispatch, hst, hp]
  · intro hp
    simp [pressButton, pressDispatch, hst, hp]

/-- C6 witness: the amended behaviour at the concrete Memories page-0
state. -/
theorem C6_refused_navigation_witness :
    (pressButton .b0 777 contentPage0State).2 = [.vibrate 30] := by
  exact ((C6_refused_navigation 777 contentPage0State rfl).1 rfl).2

/-- C7: the slide transition has exactly 16 steps; step `i` (1-based)
reveals a strip of width `i * (SCREEN_W / steps)` of the incoming image, at
the left screen edge sourced from the rightmost columns of the image when
`direction` is true, at the right screen edge sourced from the leftmost
columns when false, ends with a full-screen blit of the incoming image; and
`updatePageContent` computes the direction as true (forward) exactly when
the new page index `currentPage` exceeds the old page index
`lastMemoryPage`. -/
theorem C7_slide_algorithm (d : Bool) :
    steps = 16 ∧
    (slideAnimation d).length = steps + 1 ∧
    (∀ i : Nat, 1 ≤ i → i ≤ steps →
      (slideAnimation d)[i - 1]? =
        some (if d then
                Effect.blitStrip 0 (i * (SCREEN_W / steps))
                  (SCREEN_W - i * (SCREEN_W / steps)) Img.pic1
              else
                Effect.blitStrip (SCREEN_W - i * (SCREEN_W / steps))
                  (i * (SCREEN_W / steps)) 0 Img.pic1)) ∧
    (slideAnimation d).getLast? = some (Effect.blitFull Img.pic1) ∧
    (∀ s : Device, (updatePageContent 1 s).2 =
      Effect.vibrate VIB_SHORT ::
        (slideAnimation (decide (s.currentPage > s.lastMemoryPage)) ++
          pageIndicatorFx s.currentPage s.maxPages)) := by
  refine ⟨rfl, by simp [slideAnimation], fun i h1 h2 => ?_, ?_, fun s => ?_⟩
  · have hlt : i - 1 < steps := by omega
    have hmap : ((List.range steps).map fun j => slideStrip d (j + 1)).length
        = steps := by simp
    rw [slideAnimation, List.getElem?_append_left (by rw [hmap]; exact hlt),
      List.getElem?_map, List.getElem?_range hlt]
    have hi : i - 1 + 1 = i := by omega
    cases d <;> simp [hi, slideStrip, stepSize]
  · rw [slideAnimation, List.getLast?_concat]
  · simp [updatePageContent]

/-- C7 witness: step 4 of the forward slide is the 32-pixel strip taken from
columns 96…127 of the incoming image. -/
theorem C7_slide_algorithm_witness :
    (slideAnimation true)[3]? = some (Effect.blitStrip 0 32 96 Img.pic1) := by
  have h := (C7_slide_algorithm true).2.2.1 4 (by decide) (by decide)
  simpa using h

/-- The MENU state with "Memories" (selection 1) highlighted. -/
def menuMemoriesState : Device :=
  { currentState := .MENU, enteredPasscode := fun _ => 0, passIndex := 4,
    lastPressTime := 0, selectedMenuItem := 1, currentPage := 0,
    maxPages := 0, lastMemoryPage := 0 }

/-- Pressing Select on "Memories". -/
def afterSelect : Device × List Effect := pressButton .bselect 10 menuMemoriesState

/-- Then one "next" press. -/
def afterNext1 : Device × List Effect := pressButton .b1 20 afterSelect.1

/-- Then a second "next" press. -/
def afterNext2 : Device × List Effect := pressButton .b1 30 afterNext1.1

/-- Then the Back press. -/
def afterBack : Device × List Effect := pressButton .bback 40 afterNext2.1

/-- C8: from MENU with selection 1 (Memories, 3 pages), Select enters
CONTENT at page 0 with the image blitted directly and no title bar; content
index 1 is the only catalog entry whose `showContent` layout bypasses the
title bar; two "next" presses reach pages 1 and 2, both with the slide
direction forward (`slideAnimation true`); and Back returns to MENU with the
selection still 1. -/
theorem C8_memories_end_to_end :
    (afterSelect.1.currentState = .CONTENT ∧ afterSelect.1.currentPage = 0 ∧
      afterSelect.1.maxPages = 3 ∧
      Effect.blitFull Img.pic1 ∈ afterSelect.2 ∧
      hasTitleBar afterSelect.2 = false) ∧
    (∀ idx : Fin 4,
      hasTitleBar (showContent (idx : Nat) menuMemoriesState).2 = false ↔
        (idx : Nat) = 1) ∧
    (afterNext1.1.currentPage = 1 ∧
      afterNext1.2 = [Effect.vibrate 30, Effect.vibrate VIB_SHORT] ++
        slideAnimation true ++ [Effect.pageIndicator 1 3]) ∧
    (afterNext2.1.currentPage = 2 ∧
      afterNext2.2 = [Effect.vibrate 30, Effect.vibrate VIB_SHORT] ++
        slideAnimation true ++ [Effect.pageIndicator 2 3]) ∧
    (afterBack.1.currentState = .MENU ∧ afterBack.1.selectedMenuItem = 1) := by
  decide

/-- C10: all image reads of the Memories pipeline come from the one buffer
`pic1`: each slide (either direction) reads exactly 17 times from `pic1`
(16 strips and the final full blit), `updatePageContent` for content index 1
does the same for every state — in particular for every target page — and
entering Memories via `showContent` blits the same buffer.  The three
Memories pages therefore show identical pixel content, differing only in
the page-indicator dots (`Effect.pageIndicator`, which reads no image). -/
theorem C10_memories_single_buffer :
    (∀ d : Bool, (slideAnimation d).filterMap effectImg =
      List.replicate 17 Img.pic1) ∧
    (∀ s : Device, ((updatePageContent 1 s).2.filterMap effectImg =
      List.replicate 17 Img.pic1)) ∧
    (∀ s : Device, ((showContent 1 s).2.filterMap effectImg =
      [Img.pic1])) := by
  have hslide : ∀ d : Bool, (slideAnimation d).filterMap effectImg =
      List.replicate 17 Img.pic1 := by decide
  refine ⟨hslide, fun s => ?_, fun s => ?_⟩
  · have hfx : (updatePageContent 1 s).2 = Effect.vibrate VIB_SHORT ::
        (slideAnimation (decide (s.currentPage > s.lastMemoryPage)) ++
          pageIndicatorFx s.currentPage s.maxPages) := by
      simp [updatePageContent]
    rw [hfx]
    by_cases h : s.maxPages > 1 <;>
      simp [List.filterMap_cons, List.filterMap_append, hslide,
        pageIndicatorFx, h, effectImg]
  · have hfx : (showContent 1 s).2 =
        [Effect.vibrate VIB_MEDIUM, Effect.blitFull Img.pic1] ++
          pageIndicatorFx 0 (contentMaxPages 1 s.maxPages) := by
      simp [showContent]
    rw [hfx]
    simp [contentMaxPages, pageIndicatorFx, effectImg]


/-- C9: the passcode match check reads only the four stored slots — in the
model its sole argument is the slot array, mirroring that `checkPasscode()`
never reads `passIndex`; the reset slot values `{0,0,0,0}` already satisfy
it, since the reference is `{0,0,0,0}`; and the state machine consults it
exactly on a press that moves the cursor from 3 to `PASS_LENGTH` = 4, so no
symbols entered after a reset can make a previously-true comparison depend
on stale entries. -/
theorem C9_match_check_consultation (b : Button) (now : Nat) (s : Device)
    (r : Bool) :
    checkPasscode (fun _ => 0) = true ∧
    (Effect.matchChecked r ∈ (pressButton b now s).2 →
      s.currentState = .LOCKED ∧ s.passIndex = 3 ∧
      r = checkPasscode (writeSlot s.enteredPasscode s.passIndex (buttonSymbol b))) := by
  refine ⟨by decide, fun hmem => ?_⟩
  have h := matchChecked_only_at_full b { s with lastPressTime := now } r hmem
  exact ⟨h.1, h.2.1, h.2.2⟩

end HopeBox
